import Mathlib

/-
Verification of the calorie-counter web application core logic:
the energy model (Mifflin-St Jeor BMR, TDEE, target calories), the
achievement trigger `check_and_award_achievements` from the database
schema, the session-gate middleware, the meal-logging action, and the
meal-analysis API route guards.

Numeric values that the TypeScript code holds in JS numbers and the
database holds in `numeric` columns are embedded as rationals; the
JS `Math.round` on the (positive) values arising here is floor(x + 1/2).
-/

namespace CalorieCounter

/-- JS Math.round: rounds half away from zero toward positive infinity,
i.e. Math.round x = floor (x + 1/2). All values rounded by this program
are positive, where this agrees with JS exactly. -/
def jsRound (x : ℚ) : ℤ := ⌊x + (1 : ℚ) / 2⌋

/-- Gender options of the profile form (`'male' | 'female' | 'other'`). -/
inductive Gender
  | male
  | female
  | other
deriving DecidableEq, Repr

/-- Activity levels of the profile form. -/
inductive ActivityLevel
  | sedentary
  | light
  | moderate
  | active
  | veryActive
deriving DecidableEq, Repr

/-- Goal options of the profile form (`'lose' | 'maintain' | 'gain'`). -/
inductive Goal
  | lose
  | maintain
  | gain
deriving DecidableEq, Repr

/-- The input fields of a user profile that feed the energy model
(name and id omitted: they do not enter any computation). -/
structure ProfileInput where
  gender : Gender
  age : ℚ
  height : ℚ
  weight : ℚ
  activityLevel : ActivityLevel
  goal : Goal
deriving DecidableEq, Repr

/-- Embeds `calculateBMR` from the onboarding page and the profile page:
`const s = profile.gender === 'male' ? 5 : -161`;
`Math.round(10 * profile.weight + 6.25 * profile.height - 5 * profile.age + s)`. -/
def calculateBMR (p : ProfileInput) : ℤ :=
  let s : ℚ := if p.gender = Gender.male then 5 else -161
  jsRound (10 * p.weight + (625 / 100 : ℚ) * p.height - 5 * p.age + s)

/-- The `activityMultipliers` table shared by both `calculateTDEE` copies. -/
def activityMultiplier : ActivityLevel → ℚ
  | ActivityLevel.sedentary => 12 / 10
  | ActivityLevel.light => 1375 / 1000
  | ActivityLevel.moderate => 155 / 100
  | ActivityLevel.active => 1725 / 1000
  | ActivityLevel.veryActive => 19 / 10

/-- Embeds `calculateTDEE`: `Math.round(bmr * activityMultipliers[activityLevel])`. -/
def calculateTDEE (bmr : ℤ) (lvl : ActivityLevel) : ℤ :=
  jsRound ((bmr : ℚ) * activityMultiplier lvl)

/-- Embeds the target-calorie expression used by both submit handlers:
`tdee + (goal === 'lose' ? -500 : goal === 'gain' ? 500 : 0)`. -/
def goalDelta : Goal → ℤ
  | Goal.lose => -500
  | Goal.gain => 500
  | Goal.maintain => 0

/-- The derived triple (bmr, tdee, target_calories) as both submit handlers
compute it before writing the profile row. -/
def computeEnergyTargets (p : ProfileInput) : ℤ × ℤ × ℤ :=
  let bmr := calculateBMR p
  let tdee := calculateTDEE bmr p.activityLevel
  (bmr, tdee, tdee + goalDelta p.goal)

/-- C1: for every profile with gender in {male, female, other}, age in
[15,100], height in [120,250], weight in [30,300], the energy computation
returns bmr = round(10*weight + 6.25*height - 5*age + s) with s = 5 for
male and s = -161 otherwise, tdee = round(bmr * m) with the fixed activity
multipliers, and targetCalories = tdee - 500 for lose, tdee + 500 for
gain, tdee for maintain. -/
theorem energy_model_formulas (p : ProfileInput)
    (hage : 15 ≤ p.age ∧ p.age ≤ 100)
    (hheight : 120 ≤ p.height ∧ p.height ≤ 250)
    (hweight : 30 ≤ p.weight ∧ p.weight ≤ 300) :
    computeEnergyTargets p =
      (jsRound (10 * p.weight + (625 / 100 : ℚ) * p.height - 5 * p.age +
          (if p.gender = Gender.male then (5 : ℚ) else -161)),
        jsRound ((jsRound (10 * p.weight + (625 / 100 : ℚ) * p.height - 5 * p.age +
              (if p.gender = Gender.male then (5 : ℚ) else -161)) : ℚ) *
          (match p.activityLevel with
            | ActivityLevel.sedentary => (12 / 10 : ℚ)
            | ActivityLevel.light => 1375 / 1000
            | ActivityLevel.moderate => 155 / 100
            | ActivityLevel.active => 1725 / 1000
            | ActivityLevel.veryActive => 19 / 10)),
        jsRound ((jsRound (10 * p.weight + (625 / 100 : ℚ) * p.height - 5 * p.age +
              (if p.gender = Gender.male then (5 : ℚ) else -161)) : ℚ) *
          (match p.activityLevel with
            | ActivityLevel.sedentary => (12 / 10 : ℚ)
            | ActivityLevel.light => 1375 / 1000
            | ActivityLevel.moderate => 155 / 100
            | ActivityLevel.active => 1725 / 1000
            | ActivityLevel.veryActive => 19 / 10)) +
          (match p.goal with
            | Goal.lose => -500
            | Goal.gain => 500
            | Goal.maintain => 0)) := by
  cases p with
  | mk g a h w lvl goal =>
    cases lvl <;> cases goal <;>
      simp [computeEnergyTargets, calculateBMR, calculateTDEE,
        activityMultiplier, goalDelta]

/-- Witness for C1: the energy-model formula theorem applied to the
concrete in-range profile (male, 25, 170 cm, 70 kg, moderate, lose). -/
theorem energy_model_formulas_witness :
    computeEnergyTargets
        ⟨Gender.male, 25, 170, 70, ActivityLevel.moderate, Goal.lose⟩ =
      (jsRound (10 * 70 + (625 / 100 : ℚ) * 170 - 5 * 25 + 5),
        jsRound ((jsRound (10 * 70 + (625 / 100 : ℚ) * 170 - 5 * 25 + 5) : ℚ) *
          (155 / 100)),
        jsRound ((jsRound (10 * 70 + (625 / 100 : ℚ) * 170 - 5 * 25 + 5) : ℚ) *
          (155 / 100)) + -500) := by
  have h := energy_model_formulas
    ⟨Gender.male, 25, 170, 70, ActivityLevel.moderate, Goal.lose⟩
    (by norm_num) (by norm_num) (by norm_num)
  simpa using h

/-- C9: the two worked numerical examples of the spec. Male, age 25,
height 170, weight 70, moderate, lose yields bmr = 1643, tdee = 2547,
targetCalories = 2047; female, age 30, height 160, weight 60, sedentary,
maintain yields bmr = 1289, tdee = 1547, targetCalories = 1547. -/
theorem energy_model_examples :
    computeEnergyTargets
        ⟨Gender.male, 25, 170, 70, ActivityLevel.moderate, Goal.lose⟩ =
      (1643, 2547, 2047) ∧
    computeEnergyTargets
        ⟨Gender.female, 30, 160, 60, ActivityLevel.sedentary, Goal.maintain⟩ =
      (1289, 1547, 1547) := by
  constructor <;>
    norm_num [computeEnergyTargets, calculateBMR, calculateTDEE,
      activityMultiplier, goalDelta, jsRound,
      show (Gender.female = Gender.male) ↔ False by decide]

/-- The four milestone kinds awarded by `check_and_award_achievements`
(title column: 'First Meal', 'Getting Started', 'Week Warrior',
'Weight Loss Champion'). -/
inductive Milestone
  | firstMeal
  | tenMeals
  | weekStreak
  | weightLoss5kg
deriving DecidableEq, Repr

/-- Database state visible to the achievement trigger for one owner (every
query in the trigger body filters by `user_id = new.user_id`): the calendar
day (`date_trunc('day', created_at)`) of each of the owner's meal entries in
insertion-time order, the owner's weight entries in time order, and the
owner's achievement rows in insertion order. -/
structure DBState where
  mealDays : List ℤ
  weights : List ℚ
  achievements : List Milestone
deriving DecidableEq, Repr

/-- Embeds the weight-loss guard of the trigger:
`first_weight is not null and latest_weight is not null and
first_weight > latest_weight and (first_weight - latest_weight) >= 5`. -/
def weightLossQualifies (firstWeight latestWeight : Option ℚ) : Bool :=
  match firstWeight, latestWeight with
  | some f, some l => decide (l < f) && decide ((5 : ℚ) ≤ f - l)
  | _, _ => false

/-- Embeds the body of `check_and_award_achievements`: count the owner's
meals, count their distinct meal days, read the earliest and latest weight
entries, and return the list of achievement rows the four `if` blocks
insert. -/
def checkAndAwardAchievements (st : DBState) : List Milestone :=
  let totalMeals := st.mealDays.length
  let totalDays := st.mealDays.dedup.length
  let firstWeight := st.weights.head?
  let latestWeight := st.weights.getLast?
  (if totalMeals = 1 then [Milestone.firstMeal] else []) ++
    (if totalMeals = 10 then [Milestone.tenMeals] else []) ++
      (if totalDays = 7 then [Milestone.weekStreak] else []) ++
        (if weightLossQualifies firstWeight latestWeight then
          [Milestone.weightLoss5kg] else [])

/-- A row insertion that fires the trigger: `check_meal_achievements` runs
after insert on meal_entries and `check_weight_achievements` after insert
on weight_entries, both executing `check_and_award_achievements`. -/
inductive Insertion
  | meal (day : ℤ)
  | weight (w : ℚ)
deriving DecidableEq, Repr

/-- One insertion followed by its after-insert trigger evaluation: the new
row is visible to the trigger's queries, and every milestone the trigger
emits is appended to the achievements table. -/
def step (st : DBState) (e : Insertion) : DBState :=
  match e with
  | Insertion.meal d =>
      let inserted : DBState := { st with mealDays := st.mealDays ++ [d] }
      { inserted with
        achievements :=
          inserted.achievements ++ checkAndAwardAchievements inserted }
  | Insertion.weight w =>
      let inserted : DBState := { st with weights := st.weights ++ [w] }
      { inserted with
        achievements :=
          inserted.achievements ++ checkAndAwardAchievements inserted }

/-- Empty tables for a fresh owner. -/
def initialState : DBState := ⟨[], [], []⟩

/-- Replay a sequence of insertions, firing the trigger after each. -/
def run (es : List Insertion) : DBState := es.foldl step initialState

/-- Characterisation of the weight-loss guard: it holds exactly when both
an earliest and a latest weight exist, the earliest strictly exceeds the
latest, and the drop is at least 5. -/
theorem weightLossQualifies_iff (fw lw : Option ℚ) :
    weightLossQualifies fw lw = true ↔
      ∃ f l, fw = some f ∧ lw = some l ∧ l < f ∧ 5 ≤ f - l := by
  cases fw <;> cases lw <;> simp [weightLossQualifies]

/-- C2: the claim that no two Achievement rows ever exist for the same
(owner, milestone-kind) pair fails on the code: the trigger keeps no
already-unlocked state, and the weight-entry trigger re-evaluates the meal
milestones, so logging one meal and then one weight entry inserts the
First Meal achievement twice for the same owner. -/
theorem duplicate_first_meal_achievement :
    ((run [Insertion.meal 0, Insertion.weight 80]).achievements.count
      Milestone.firstMeal) = 2 := by
  decide

/-- C4: the claim that first_meal is awarded only at the evaluation that
brings the meal count from 0 to 1 fails on the code: the full trace of one
meal insertion followed by one weight insertion ends with two firstMeal
rows, the second awarded by a weight-triggered evaluation at which the
meal count was still 1 and did not transition. -/
theorem first_meal_reawarded_by_weight_insertion :
    run [Insertion.meal 0, Insertion.weight 80] =
      ⟨[0], [80], [Milestone.firstMeal, Milestone.firstMeal]⟩ := by
  decide

/-- C5: an evaluation of the trigger awards weight_loss_5kg exactly when
the owner's earliest and latest weight entries both exist, the earliest
strictly exceeds the latest, and their difference is at least 5 kg; the
history [80, 77, 74.9] qualifies and [80, 77, 76] does not. -/
theorem weight_loss_5kg_characterisation :
    (∀ st : DBState,
      Milestone.weightLoss5kg ∈ checkAndAwardAchievements st ↔
        ∃ f l, st.weights.head? = some f ∧ st.weights.getLast? = some l ∧
          l < f ∧ 5 ≤ f - l) ∧
    Milestone.weightLoss5kg ∈
      checkAndAwardAchievements ⟨[], [80, 77, 749 / 10], []⟩ ∧
    Milestone.weightLoss5kg ∉
      checkAndAwardAchievements ⟨[], [80, 77, 76], []⟩ := by
  have hmain : ∀ st : DBState,
      Milestone.weightLoss5kg ∈ checkAndAwardAchievements st ↔
        ∃ f l, st.weights.head? = some f ∧ st.weights.getLast? = some l ∧
          l < f ∧ 5 ≤ f - l := by
    intro st
    simp only [checkAndAwardAchievements]
    split_ifs with h1 h2 h3 h4 <;> simp_all [weightLossQualifies_iff]
  refine ⟨hmain, ?_, ?_⟩
  · exact (hmain ⟨[], [80, 77, 749 / 10], []⟩).mpr
      ⟨80, 749 / 10, rfl, rfl, by norm_num, by norm_num⟩
  · intro hm
    obtain ⟨f, l, hf, hl, hlt, hge⟩ := (hmain ⟨[], [80, 77, 76], []⟩).mp hm
    have hf2 : (80 : ℚ) = f := by simpa using hf
    have hl2 : (76 : ℚ) = l := by simpa using hl
    subst hf2
    subst hl2
    norm_num at hge

/-- Witness for C5: the characterisation applied at a concrete state whose
weight history drops from 90 kg to 84 kg. -/
theorem weight_loss_5kg_characterisation_witness :
    Milestone.weightLoss5kg ∈ checkAndAwardAchievements ⟨[5], [90, 84], []⟩ :=
  (weight_loss_5kg_characterisation.1 ⟨[5], [90, 84], []⟩).mpr
    ⟨90, 84, rfl, rfl, by norm_num, by norm_num⟩

/-- C6: an evaluation of the trigger awards week_streak exactly when the
number of distinct calendar days with at least one logged meal is 7; the
days need not be consecutive, so any 7 distinct logging days qualify. -/
theorem week_streak_distinct_days :
    (∀ st : DBState,
      Milestone.weekStreak ∈ checkAndAwardAchievements st ↔
        st.mealDays.dedup.length = 7) ∧
    (∀ days : List ℤ, days.Nodup → days.length = 7 →
      Milestone.weekStreak ∈ checkAndAwardAchievements ⟨days, [], []⟩) := by
  constructor
  · intro st
    simp only [checkAndAwardAchievements]
    split_ifs with h1 h2 h3 h4 <;> simp_all
  · intro days hnd hlen
    simp only [checkAndAwardAchievements]
    rw [List.dedup_eq_self.mpr hnd]
    split_ifs with h1 h2 h3 h4 <;> simp_all

/-- Witness for C6: seven distinct, non-consecutive meal days with gaps
between them (days 0, 3, 7, 8, 20, 45, 100) qualify for week_streak. -/
theorem week_streak_distinct_days_witness :
    Milestone.weekStreak ∈
      checkAndAwardAchievements ⟨[0, 3, 7, 8, 20, 45, 100], [], []⟩ :=
  week_streak_distinct_days.2 [0, 3, 7, 8, 20, 45, 100] (by decide) (by decide)

/-- Decision of the session-gate middleware: pass the request through, or
redirect to another path. -/
inductive GateDecision
  | allow
  | redirectTo (path : String)
deriving DecidableEq, Repr

/-- JS String.prototype.startsWith, expressed on the character sequence of
the string so that it evaluates on concrete paths. -/
def jsStartsWith (s pre : String) : Bool := pre.data.isPrefixOf s.data

/-- Embeds the middleware body: with a session, requests whose pathname
starts with /auth or equals / redirect to /dashboard; without a session,
pathnames starting with /dashboard or /onboarding redirect to /auth/login;
every other request passes through (`return res`). -/
def middlewareDecision (isAuthenticated : Bool) (pathname : String) :
    GateDecision :=
  if isAuthenticated then
    if jsStartsWith pathname "/auth" ∨ pathname = "/" then
      GateDecision.redirectTo "/dashboard"
    else GateDecision.allow
  else
    if jsStartsWith pathname "/dashboard" ∨ jsStartsWith pathname "/onboarding" then
      GateDecision.redirectTo "/auth/login"
    else GateDecision.allow

/-- C3: the session gate redirects authenticated requests for /auth pages
or the root to the dashboard home, redirects unauthenticated requests for
dashboard or onboarding paths to the login page, and allows everything
else; in particular (true, "/auth/login") and (false, "/dashboard/progress")
redirect and (false, "/about") is allowed. -/
theorem session_gate_policy :
    (∀ p : String, (jsStartsWith p "/auth" ∨ p = "/") →
      middlewareDecision true p = GateDecision.redirectTo "/dashboard") ∧
    (∀ p : String, (jsStartsWith p "/dashboard" ∨ jsStartsWith p "/onboarding") →
      middlewareDecision false p = GateDecision.redirectTo "/auth/login") ∧
    (∀ p : String, ¬(jsStartsWith p "/auth" ∨ p = "/") →
      middlewareDecision true p = GateDecision.allow) ∧
    (∀ p : String, ¬(jsStartsWith p "/dashboard" ∨ jsStartsWith p "/onboarding") →
      middlewareDecision false p = GateDecision.allow) ∧
    middlewareDecision true "/auth/login" = GateDecision.redirectTo "/dashboard" ∧
    middlewareDecision false "/dashboard/progress" =
      GateDecision.redirectTo "/auth/login" ∧
    middlewareDecision false "/about" = GateDecision.allow := by
  have hauth : ∀ p : String, middlewareDecision true p =
      if jsStartsWith p "/auth" ∨ p = "/" then GateDecision.redirectTo "/dashboard"
      else GateDecision.allow := fun p => rfl
  have hanon : ∀ p : String, middlewareDecision false p =
      if jsStartsWith p "/dashboard" ∨ jsStartsWith p "/onboarding" then
        GateDecision.redirectTo "/auth/login"
      else GateDecision.allow := fun p => rfl
  refine ⟨fun p h => ?_, fun p h => ?_, fun p h => ?_, fun p h => ?_,
    ?_, ?_, ?_⟩
  · rw [hauth, if_pos h]
  · rw [hanon, if_pos h]
  · rw [hauth, if_neg h]
  · rw [hanon, if_neg h]
  · rw [hauth, if_pos (Or.inl (by decide))]
  · rw [hanon, if_pos (Or.inl (by decide))]
  · rw [hanon, if_neg (by decide)]

/-- Witness for C3 (the universally quantified redirect cases applied at
the concrete pairs named by the claim). -/
theorem session_gate_policy_witness :
    middlewareDecision true "/" = GateDecision.redirectTo "/dashboard" ∧
    middlewareDecision false "/onboarding" = GateDecision.redirectTo "/auth/login" :=
  ⟨session_gate_policy.1 "/" (Or.inr rfl),
    session_gate_policy.2.1 "/onboarding" (Or.inr (by decide))⟩

/-- Nutrition values returned by the meal-analysis estimator:
`{ calories, protein, carbs, fat }`. -/
structure Nutrition where
  calories : ℚ
  protein : ℚ
  carbs : ℚ
  fat : ℚ
deriving DecidableEq, Repr

/-- A meal_entries row as the dashboard inserts it: the free-text
description together with the nutrition values spread from the analysis
response. -/
structure MealEntry where
  mealText : String
  nutrition : Nutrition
deriving DecidableEq, Repr

/-- Embeds handleMealSubmit of the dashboard page, parameterised by the
outcome of the analyze-meal call: a non-ok response throws, is caught, and
sets the error message with no insert; an ok response has its nutrition
data inserted together with the meal text. Returns the owner's meal rows
after the action and the error message shown, if any. -/
def handleMealSubmit (meals : List MealEntry) (text : String)
    (analyzeOutcome : Except String Nutrition) :
    List MealEntry × Option String :=
  match analyzeOutcome with
  | Except.error _ => (meals, some "Failed to log meal. Please try again.")
  | Except.ok n => (meals ++ [⟨text, n⟩], none)

/-- C7: if the nutrition estimation fails the meal-logging action aborts
with an error shown to the user and no MealEntry is written; a MealEntry
is persisted only after a successful estimation and carries the returned
nutrition values. -/
theorem estimation_failure_aborts_logging
    (meals : List MealEntry) (text : String)
    (outcome : Except String Nutrition) :
    (∀ e, outcome = Except.error e →
      handleMealSubmit meals text outcome =
        (meals, some "Failed to log meal. Please try again.")) ∧
    (∀ n, outcome = Except.ok n →
      handleMealSubmit meals text outcome = (meals ++ [⟨text, n⟩], none)) := by
  constructor <;> rintro x rfl <;> rfl

/-- Witness for C7: a provider failure on an empty history leaves the meal
table empty and shows the failure message. -/
theorem estimation_failure_aborts_logging_witness :
    handleMealSubmit [] "2 scrambled eggs" (Except.error "provider error") =
      ([], some "Failed to log meal. Please try again.") :=
  (estimation_failure_aborts_logging [] "2 scrambled eggs"
    (Except.error "provider error")).1 "provider error" rfl

/-- A profiles row as the two submit handlers write it (id, name and
timestamps omitted: they do not interact with the derived columns). -/
structure ProfileRow where
  gender : Gender
  age : ℚ
  height : ℚ
  weight : ℚ
  activityLevel : ActivityLevel
  goal : Goal
  bmr : ℤ
  tdee : ℤ
  targetCalories : ℤ
deriving DecidableEq, Repr

/-- The input fields stored in a written row, as the energy model reads
them. -/
def ProfileRow.inputFields (r : ProfileRow) : ProfileInput :=
  ⟨r.gender, r.age, r.height, r.weight, r.activityLevel, r.goal⟩

/-- Embeds the onboarding handleSubmit upsert payload: the form fields
together with bmr, tdee and target_calories computed from those same
fields in the same write. -/
def onboardingUpsertRow (p : ProfileInput) : ProfileRow :=
  let bmr := calculateBMR p
  let tdee := calculateTDEE bmr p.activityLevel
  { gender := p.gender, age := p.age, height := p.height, weight := p.weight,
    activityLevel := p.activityLevel, goal := p.goal,
    bmr := bmr, tdee := tdee, targetCalories := tdee + goalDelta p.goal }

/-- The profile-page state: the edited input fields plus the stale derived
columns fetched from the database. -/
structure StoredProfile where
  input : ProfileInput
  staleBmr : ℤ
  staleTdee : ℤ
  staleTarget : ℤ
deriving DecidableEq, Repr

/-- Embeds the profile-page handleSubmit update payload: the spread of the
fetched profile object followed by freshly computed bmr, tdee and
target_calories, so the later keys overwrite the stale derived columns in
the same update. -/
def profileEditUpdateRow (sp : StoredProfile) : ProfileRow :=
  let bmr := calculateBMR sp.input
  let tdee := calculateTDEE bmr sp.input.activityLevel
  { gender := sp.input.gender, age := sp.input.age,
    height := sp.input.height, weight := sp.input.weight,
    activityLevel := sp.input.activityLevel, goal := sp.input.goal,
    bmr := bmr, tdee := tdee,
    targetCalories := tdee + goalDelta sp.input.goal }

/-- C8: both profile writes (onboarding upsert and profile-edit update)
store bmr, tdee and target_calories equal to the energy model applied to
the input fields of the written row itself, and the profile-edit payload
is independent of the stale derived values fetched from the database. -/
theorem profile_writes_recompute_derived_together :
    (∀ p : ProfileInput,
      ((onboardingUpsertRow p).bmr, (onboardingUpsertRow p).tdee,
        (onboardingUpsertRow p).targetCalories) =
        computeEnergyTargets (onboardingUpsertRow p).inputFields) ∧
    (∀ sp : StoredProfile,
      ((profileEditUpdateRow sp).bmr, (profileEditUpdateRow sp).tdee,
        (profileEditUpdateRow sp).targetCalories) =
        computeEnergyTargets (profileEditUpdateRow sp).inputFields) ∧
    (∀ (p : ProfileInput) (b1 t1 c1 b2 t2 c2 : ℤ),
      profileEditUpdateRow ⟨p, b1, t1, c1⟩ = profileEditUpdateRow ⟨p, b2, t2, c2⟩) :=
  ⟨fun _ => rfl, fun _ => rfl, fun _ _ _ _ _ _ _ => rfl⟩

/-- Result of the analyze-meal route handler: the HTTP status returned and
whether the external provider (the OpenAI completion call) was invoked. -/
structure RouteResult where
  status : ℕ
  providerCalled : Bool
deriving DecidableEq, Repr

/-- Embeds the POST handler of /api/analyze-meal: no session returns 401
before any provider work; a missing or empty (falsy) mealText returns 400
before any provider work; otherwise the provider is invoked and the
handler returns 200 with the parsed data, or 500 from the catch block when
the provider call fails, returns no content, or returns malformed JSON. -/
def analyzeMealPOST (hasSession : Bool) (mealText : Option String)
    (providerOutcome : Except String Nutrition) : RouteResult :=
  if !hasSession then ⟨401, false⟩
  else
    match mealText with
    | none => ⟨400, false⟩
    | some t =>
      if t = "" then ⟨400, false⟩
      else
        match providerOutcome with
        | Except.error _ => ⟨500, true⟩
        | Except.ok _ => ⟨200, true⟩

/-- C10: without a session the meal-analysis endpoint returns 401 without
calling the estimator; with a session but a missing or empty mealText it
returns 400 without calling the estimator; the provider is invoked exactly
when both checks pass. -/
theorem analyze_meal_route_guards (hasSession : Bool)
    (mealText : Option String) (outcome : Except String Nutrition) :
    (hasSession = false →
      analyzeMealPOST hasSession mealText outcome = ⟨401, false⟩) ∧
    (hasSession = true → (mealText = none ∨ mealText = some "") →
      analyzeMealPOST hasSession mealText outcome = ⟨400, false⟩) ∧
    (hasSession = true → ∀ t, mealText = some t → t ≠ "" →
      (analyzeMealPOST hasSession mealText outcome).providerCalled = true) := by
  refine ⟨?_, ?_, ?_⟩
  · rintro rfl
    rfl
  · rintro rfl (rfl | rfl) <;> rfl
  · rintro rfl t rfl ht
    cases outcome <;> simp [analyzeMealPOST, ht]

/-- Witness for C10: an unauthenticated request is refused with 401 and no
provider call, even though the provider would have succeeded. -/
theorem analyze_meal_route_guards_witness :
    analyzeMealPOST false (some "2 eggs") (Except.ok ⟨180, 12, 2, 13⟩) =
      ⟨401, false⟩ :=
  (analyze_meal_route_guards false (some "2 eggs")
    (Except.ok ⟨180, 12, 2, 13⟩)).1 rfl

end CalorieCounter
